import Mathlib

/-
Verification development for the pi-fmcg-classifier repository.

Embedded components (from src/src/utils/config_manager.py and
src/src/hardware_manager.py):

* ConfigManager: load_config / validate_config / save_config over a
  structured configuration document.  A parsed JSON document is modelled
  at the level the code manipulates it: an association list of named
  sections, each section a mapping from key names to JSON values (the
  data model of the spec, section 3; on this domain the Python membership
  test `key in dict` is exactly key membership).  The file system is
  modelled as the parse outcome of the configuration file: `none` when
  the file is absent, `some (Except.error ())` when present but not
  parseable, `some (Except.ok doc)` when it parses to `doc`.  That the
  JSON library parses back what it printed is assumed at this level
  (persistence internals are out of scope per the spec, section 1).

* HardwareManager: the Standby / Collecting / Classifying mode machine.
  The shared mutable state of the Python object is a record; each API
  call (start/stop of either mode) is one atomic transition executed by
  the presentation thread, and each statement of a background worker
  loop is one atomic transition of that worker, located by a program
  counter.  Workers of a mode are kept in a list in spawn order: the
  Python attribute collection_thread / classification_thread always
  refers to the most recently spawned worker of the mode, so a worker is
  that attribute exactly when it is the last element of the list.
  time.sleep and Thread.join only consume time, so they are invisible
  transitions here; in particular a bounded join that times out simply
  leaves the joined worker alive.  The configured interval values only
  affect timing and are dropped; images_per_session and the existence of
  the model artifact on disk are the environment of the machine.
-/

namespace PiFMCG

/-- JSON values, as produced by json.load. -/
inductive JVal
  | jnull
  | jbool (b : Bool)
  | jnum (n : Int)
  | jstr (s : String)
  | jarr (elems : List JVal)
  | jobj (fields : List (String × JVal))

/-- One configuration section: a mapping of key names to JSON values. -/
abbrev ConfigSection := List (String × JVal)

/-- A parsed configuration document: named sections. -/
abbrev Doc := List (String × ConfigSection)

/-- Python dict lookup self.config[section] (parsed dicts have unique keys). -/
def lookupSec : Doc → String → Option ConfigSection
  | [], _ => none
  | (k, v) :: rest, key => if k = key then some v else lookupSec rest key

/-- Python membership test `key in section` for a section mapping. -/
def hasKey (sec : ConfigSection) (key : String) : Bool :=
  sec.any (fun kv => kv.1 == key)

/-- The required top-level sections (config_manager.py, validate_config). -/
def required_sections : List String :=
  ["camera", "collection", "classification", "ui", "paths", "sensors"]

/-- The required keys of each section (config_manager.py, validate_config). -/
def required_keys : List (String × List String) :=
  [("camera", ["image_width", "image_height", "capture_format", "quality"]),
   ("collection", ["trigger_mode", "auto_capture_interval", "images_per_session"]),
   ("classification", ["model_path", "confidence_threshold", "auto_classify_interval"]),
   ("ui", ["font_family", "base_screen", "font_sizes", "window_sizing", "colors"]),
   ("paths", ["captured_images", "classification_results", "models", "logo"]),
   ("sensors", ["ir_sensor_pin", "voltage_threshold", "trigger_delay_ms"])]

/-- The per-section key check loop of validate_config: for each listed
section, a missing section is skipped (`continue`), and a present section
raises on its first missing key. -/
def checkRequiredKeys (config : Doc) : List (String × List String) → Except String Unit
  | [] => Except.ok ()
  | (sec, keys) :: rest =>
    match lookupSec config sec with
    | none => checkRequiredKeys config rest
    | some sm =>
      if (keys.filter (fun k => !(hasKey sm k))).isEmpty = true
      then checkRequiredKeys config rest
      else Except.error ("Missing required keys in section " ++ sec)

/-- ConfigManager.validate_config: raises ValueError listing the missing
sections if any required section is absent, then checks required keys. -/
def validate_config (config : Doc) : Except String Unit :=
  if (required_sections.filter (fun sec => (lookupSec config sec).isNone)).isEmpty = true
  then checkRequiredKeys config required_keys
  else Except.error ("Missing required config sections: "
        ++ String.intercalate ", "
             (required_sections.filter (fun sec => (lookupSec config sec).isNone)))

/-- The error taxonomy of startup configuration loading. -/
inductive LoadError
  | configMissing
  | configMalformed
  | configInvalid (msg : String)

/-- ConfigManager.load_config: FileNotFoundError when the file is absent,
json.JSONDecodeError (a ValueError) when it does not parse, ValueError from
validate_config when required structure is missing.  Every error branch
shows the Configuration Error dialog and calls exit(), so no configuration
is populated on failure; this is the Except.error outcome. -/
def load_config (file : Option (Except Unit Doc)) : Except LoadError Doc :=
  match file with
  | none => Except.error LoadError.configMissing
  | some (Except.error _) => Except.error LoadError.configMalformed
  | some (Except.ok doc) =>
    match validate_config doc with
    | Except.error msg => Except.error (LoadError.configInvalid msg)
    | Except.ok _ => Except.ok doc

/-- The state a ConfigManager touches: the on-disk file (as its parse
outcome), the in-memory document self.config, and the dialogs shown. -/
structure ConfigState where
  disk : Option (Except Unit Doc)
  mem : Doc
  dialogs : List (String × String)

/-- Outcome of the file write in save_config: success, or an exception
whose effect on the file is arbitrary (diskAfter) with message msg. -/
inductive SaveOutcome
  | success
  | failure (diskAfter : Option (Except Unit Doc)) (msg : String)

/-- ConfigManager.save_config: json.dump the new document, then (only after
the write completed) assign self.config = new_config and return True; on any
exception, show the error dialog and return False, leaving self.config as it
was. -/
def save_config (o : SaveOutcome) (new : Doc) (s : ConfigState) : ConfigState × Bool :=
  match o with
  | SaveOutcome.success =>
    ({ disk := some (Except.ok new), mem := new, dialogs := s.dialogs }, true)
  | SaveOutcome.failure d m =>
    ({ disk := d, mem := s.mem,
       dialogs := ("Error", "Error saving settings: " ++ m) :: s.dialogs }, false)

/-- Some required top-level section is absent from the document. -/
def sectionMissing (doc : Doc) : Prop :=
  ∃ sec, sec ∈ required_sections ∧ lookupSec doc sec = none

/-- Some required key is absent from a section that is present. -/
def keyMissingInPresent (doc : Doc) : Prop :=
  ∃ sec keys sm, (sec, keys) ∈ required_keys ∧ lookupSec doc sec = some sm ∧
    ∃ k, k ∈ keys ∧ hasKey sm k = false

/-! ## HardwareManager: the mode state machine -/

/-- Program counter of a background worker: the next statement of its loop
body to execute.  autoStop is the statement after the collection loop that
calls stop_collection_mode when the session completed on its own; exited
means the thread function returned (or the thread died by an uncaught
exception). -/
inductive WorkerPC
  | loopHead
  | capture
  | increment
  | publish
  | sleepCheck
  | sleeping
  | autoStop
  | exited
deriving DecidableEq, BEq

/-- Environment of the machine: the tunables read from the configuration
and the file-system fact checked by start_classification_mode.  The two
interval values only determine sleep durations and are dropped in this
untimed model. -/
structure Env where
  images_per_session : Nat
  model_exists : Bool

/-- The shared mutable state of a HardwareManager together with the
observable presentation surface: the two mode flags, the two counters,
the workers of each mode in spawn order (the Python thread attribute
always denotes the last element), the page currently shown, the counter
values published to the UI (most recent first), and the warning and error
dialogs shown (most recent first). -/
structure HWState where
  is_collecting : Bool
  is_classifying : Bool
  image_count : Nat
  classification_count : Nat
  col_workers : List WorkerPC
  cls_workers : List WorkerPC
  page : String
  col_published : List Nat
  cls_published : List Nat
  warnings : List (String × String)
  errors : List (String × String)
deriving DecidableEq

/-- The state right after HardwareManager.__init__ with the main page up. -/
def initState : HWState :=
  { is_collecting := false, is_classifying := false,
    image_count := 0, classification_count := 0,
    col_workers := [], cls_workers := [], page := "main",
    col_published := [], cls_published := [], warnings := [], errors := [] }

/-- The warning shown when collection is requested during classification. -/
def stopClassificationFirst : String × String :=
  ("Warning", "Please stop classification mode first")

/-- The warning shown when classification is requested during collection. -/
def stopCollectionFirst : String × String :=
  ("Warning", "Please stop collection mode first")

/-- The error shown when the model artifact is absent. -/
def noTrainedModel : String × String :=
  ("Error", "No trained model found")

/-- HardwareManager.start_collection_mode: warn and return if classifying;
otherwise set the flag, reset the counter, show the collection page and
spawn a collection worker. -/
def start_collection_mode (s : HWState) : HWState :=
  if s.is_classifying = true then
    { s with warnings := stopClassificationFirst :: s.warnings }
  else
    { s with is_collecting := true, image_count := 0, page := "collection",
             col_workers := s.col_workers ++ [WorkerPC.loopHead] }

/-- HardwareManager.stop_collection_mode as called from the presentation
thread: clear the flag, join the last spawned worker for at most one second
(which only consumes time), show the main page. -/
def stop_collection_mode (s : HWState) : HWState :=
  { s with is_collecting := false, page := "main" }

/-- HardwareManager.start_classification_mode: warn and return if
collecting; then reject with the error dialog if the model artifact does
not exist; otherwise set the flag, reset the counter, show the
classification page and spawn a classification worker. -/
def start_classification_mode (env : Env) (s : HWState) : HWState :=
  if s.is_collecting = true then
    { s with warnings := stopCollectionFirst :: s.warnings }
  else if env.model_exists = false then
    { s with errors := noTrainedModel :: s.errors }
  else
    { s with is_classifying := true, classification_count := 0,
             page := "classification",
             cls_workers := s.cls_workers ++ [WorkerPC.loopHead] }

/-- HardwareManager.stop_classification_mode, from the presentation
thread: clear the flag, bounded join, show the main page. -/
def stop_classification_mode (s : HWState) : HWState :=
  { s with is_classifying := false, page := "main" }

/-- One statement of HardwareManager.collection_loop executed by the
worker whose next statement is pc.  isLast says whether this worker is
the one currently referenced by self.collection_thread (the last spawned):
in the auto-stop branch stop_collection_mode then joins the current thread
itself, which raises RuntimeError, so the thread dies before reaching
show_page; when some later spawn took over the attribute, the join is an
ordinary bounded wait and the main page is shown. -/
def collection_loop_step (env : Env) (isLast : Bool) (pc : WorkerPC) (s : HWState) :
    WorkerPC × HWState :=
  match pc with
  | WorkerPC.loopHead =>
    if s.is_collecting = true ∧ s.image_count < env.images_per_session then
      (WorkerPC.capture, s)
    else (WorkerPC.autoStop, s)
  | WorkerPC.capture => (WorkerPC.increment, s)
  | WorkerPC.increment => (WorkerPC.publish, { s with image_count := s.image_count + 1 })
  | WorkerPC.publish =>
    (WorkerPC.sleepCheck, { s with col_published := s.image_count :: s.col_published })
  | WorkerPC.sleepCheck =>
    if s.is_collecting = true then (WorkerPC.sleeping, s) else (WorkerPC.loopHead, s)
  | WorkerPC.sleeping => (WorkerPC.loopHead, s)
  | WorkerPC.autoStop =>
    if s.is_collecting = true then
      if isLast then (WorkerPC.exited, { s with is_collecting := false })
      else (WorkerPC.exited, { s with is_collecting := false, page := "main" })
    else (WorkerPC.exited, s)
  | WorkerPC.exited => (WorkerPC.exited, s)

/-- One statement of HardwareManager.classification_loop: same cycle shape,
but no session ceiling and no statement after the while loop. -/
def classification_loop_step (pc : WorkerPC) (s : HWState) : WorkerPC × HWState :=
  match pc with
  | WorkerPC.loopHead =>
    if s.is_classifying = true then (WorkerPC.capture, s) else (WorkerPC.exited, s)
  | WorkerPC.capture => (WorkerPC.increment, s)
  | WorkerPC.increment =>
    (WorkerPC.publish, { s with classification_count := s.classification_count + 1 })
  | WorkerPC.publish =>
    (WorkerPC.sleepCheck,
     { s with cls_published := s.classification_count :: s.cls_published })
  | WorkerPC.sleepCheck =>
    if s.is_classifying = true then (WorkerPC.sleeping, s) else (WorkerPC.loopHead, s)
  | WorkerPC.sleeping => (WorkerPC.loopHead, s)
  | WorkerPC.autoStop => (WorkerPC.exited, s)
  | WorkerPC.exited => (WorkerPC.exited, s)

/-- The worker pc at position i of a worker list. -/
def nthWorker : List WorkerPC → Nat → Option WorkerPC
  | [], _ => none
  | pc :: _, 0 => some pc
  | _ :: rest, i + 1 => nthWorker rest i

/-- The worker list with position i replaced. -/
def setWorker : List WorkerPC → Nat → WorkerPC → List WorkerPC
  | [], _, _ => []
  | _ :: rest, 0, pc => pc :: rest
  | w :: rest, i + 1, pc => w :: setWorker rest i pc

/-- Execute one statement of collection worker i (no effect for an index
that names no worker). -/
def stepColWorker (env : Env) (i : Nat) (s : HWState) : HWState :=
  match nthWorker s.col_workers i with
  | none => s
  | some pc =>
    let r := collection_loop_step env (i + 1 == s.col_workers.length) pc s
    { r.2 with col_workers := setWorker r.2.col_workers i r.1 }

/-- Execute one statement of classification worker i. -/
def stepClsWorker (i : Nat) (s : HWState) : HWState :=
  match nthWorker s.cls_workers i with
  | none => s
  | some pc =>
    let r := classification_loop_step pc s
    { r.2 with cls_workers := setWorker r.2.cls_workers i r.1 }

/-- The interleaving semantics of the program: at any moment either the
presentation thread runs one HardwareManager entry point or some live
worker executes its next statement.  Exited workers step idly (their
transition is the identity), so no generality is lost by not guarding. -/
inductive Step (env : Env) : HWState → HWState → Prop
  | startCol (s : HWState) : Step env s (start_collection_mode s)
  | stopCol (s : HWState) : Step env s (stop_collection_mode s)
  | startCls (s : HWState) : Step env s (start_classification_mode env s)
  | stopCls (s : HWState) : Step env s (stop_classification_mode s)
  | colWorker (s : HWState) (i : Nat) : Step env s (stepColWorker env i s)
  | clsWorker (s : HWState) (i : Nat) : Step env s (stepClsWorker i s)

/-- The states the program can reach from startup. -/
def Reachable (env : Env) (s : HWState) : Prop :=
  Relation.ReflTransGen (Step env) initState s

/-- Run the first collection worker alone for the given number of
statements (the execution when no other thread is scheduled). -/
def colRun (env : Env) : Nat → HWState → HWState
  | 0, s => s
  | n + 1, s => colRun env n (stepColWorker env 0 s)

/-- Run the first classification worker alone. -/
def clsRun : Nat → HWState → HWState
  | 0, s => s
  | n + 1, s => clsRun n (stepClsWorker 0 s)

/-- Number of live workers in a list (a thread is alive until its function
returns or dies). -/
def aliveWorkers (ws : List WorkerPC) : Nat :=
  (ws.filter (fun pc => !(pc == WorkerPC.exited))).length

/-- The counter values a worker would publish in k cycles starting from
counter value c, pushed onto p (most recent first). -/
def pubsFrom : Nat → Nat → List Nat → List Nat
  | _, 0, p => p
  | c, k + 1, p => pubsFrom (c + 1) k ((c + 1) :: p)

/-! ## ConfigStore claims -/

/-- Helper: a nonempty filter result refutes isEmpty. -/
lemma filter_isEmpty_false {α : Type} (p : α → Bool) (l : List α) (a : α)
    (ha : a ∈ l) (hp : p a = true) : (l.filter p).isEmpty = false := by
  have hmem : a ∈ l.filter p := List.mem_filter.mpr ⟨ha, hp⟩
  have hne : l.filter p ≠ [] := List.ne_nil_of_mem hmem
  cases hfe : (l.filter p) with
  | nil => exact absurd hfe hne
  | cons x xs => simp [hfe] at hmem ⊢

/-- Unfolding equation: the key check skips a missing section. -/
lemma checkRequiredKeys_cons_none (config : Doc) (s0 : String) (k0 : List String)
    (tl : List (String × List String)) (hl : lookupSec config s0 = none) :
    checkRequiredKeys config ((s0, k0) :: tl) = checkRequiredKeys config tl := by
  conv_lhs => rw [checkRequiredKeys]
  rw [hl]

/-- Unfolding equation: the key check inspects a present section. -/
lemma checkRequiredKeys_cons_some (config : Doc) (s0 : String) (k0 : List String)
    (tl : List (String × List String)) (sm0 : ConfigSection)
    (hl : lookupSec config s0 = some sm0) :
    checkRequiredKeys config ((s0, k0) :: tl) =
      if (k0.filter (fun t => !(hasKey sm0 t))).isEmpty = true
      then checkRequiredKeys config tl
      else Except.error ("Missing required keys in section " ++ s0) := by
  conv_lhs => rw [checkRequiredKeys]
  rw [hl]

/-- Unfolding equation: loading a file that parses runs validation. -/
lemma load_config_parsed (doc : Doc) :
    load_config (some (Except.ok doc)) =
      match validate_config doc with
      | Except.error msg => Except.error (LoadError.configInvalid msg)
      | Except.ok _ => Except.ok doc := rfl

/-- A document with a missing required section fails validation. -/
lemma validate_error_of_sectionMissing (doc : Doc) (h : sectionMissing doc) :
    ∃ m, validate_config doc = Except.error m := by
  obtain ⟨sec, hmem, hnone⟩ := h
  have hE : (required_sections.filter
      (fun t => (lookupSec doc t).isNone)).isEmpty = false :=
    filter_isEmpty_false _ _ sec hmem (by simp [hnone])
  have hv : validate_config doc = Except.error ("Missing required config sections: "
      ++ String.intercalate ", "
           (required_sections.filter (fun sec => (lookupSec doc sec).isNone))) := by
    unfold validate_config
    rw [hE]
    rfl
  exact ⟨_, hv⟩

/-- The key check loop raises whenever some listed section is present with
a missing required key. -/
lemma checkRequiredKeys_error (config : Doc) :
    ∀ L : List (String × List String),
    (∃ sec keys sm, (sec, keys) ∈ L ∧ lookupSec config sec = some sm ∧
       ∃ k, k ∈ keys ∧ hasKey sm k = false) →
    ∃ m, checkRequiredKeys config L = Except.error m := by
  intro L
  induction L with
  | nil =>
    rintro ⟨sec, keys, sm, hmem, -⟩
    simp at hmem
  | cons hd tl ih =>
    rintro ⟨sec, keys, sm, hmem, hlook, k, hk, hkey⟩
    obtain ⟨s0, k0⟩ := hd
    cases hl : lookupSec config s0 with
    | none =>
      rw [checkRequiredKeys_cons_none config s0 k0 tl hl]
      rcases List.mem_cons.mp hmem with heq | htl
      · obtain ⟨rfl, rfl⟩ : sec = s0 ∧ keys = k0 := Prod.mk.injEq .. ▸ heq
        rw [hl] at hlook
        exact absurd hlook (by simp)
      · exact ih ⟨sec, keys, sm, htl, hlook, k, hk, hkey⟩
    | some sm0 =>
      rw [checkRequiredKeys_cons_some config s0 k0 tl sm0 hl]
      by_cases hme : ((k0.filter (fun t => !(hasKey sm0 t))).isEmpty = true)
      · rw [if_pos hme]
        rcases List.mem_cons.mp hmem with heq | htl
        · obtain ⟨rfl, rfl⟩ : sec = s0 ∧ keys = k0 := Prod.mk.injEq .. ▸ heq
          rw [hl] at hlook
          have hsm : sm = sm0 := (Option.some.inj hlook).symm
          subst hsm
          have hfe : (keys.filter (fun t => !(hasKey sm t))).isEmpty = false :=
            filter_isEmpty_false _ _ k hk (by simp [hkey])
          rw [hfe] at hme
          exact absurd hme (by simp)
        · exact ih ⟨sec, keys, sm, htl, hlook, k, hk, hkey⟩
      · rw [if_neg hme]
        exact ⟨_, rfl⟩

/-- A structurally incomplete document never validates. -/
lemma validate_error_of_missing (doc : Doc)
    (h : sectionMissing doc ∨ keyMissingInPresent doc) :
    ∃ m, validate_config doc = Except.error m := by
  rcases h with hs | hk
  · exact validate_error_of_sectionMissing doc hs
  · by_cases hE : ((required_sections.filter
        (fun t => (lookupSec doc t).isNone)).isEmpty = true)
    · obtain ⟨m, hm⟩ := checkRequiredKeys_error doc required_keys hk
      refine ⟨m, ?_⟩
      unfold validate_config
      rw [if_pos hE]
      exact hm
    · unfold validate_config
      rw [if_neg hE]
      exact ⟨_, rfl⟩

/-- C8: ConfigStore.load() fails with ConfigInvalid whenever any required
top-level section, or any required key within a present section, is absent
from the parsed document, and on such documents it never produces a usable
configuration (no implicit default filling). -/
theorem C8_load_missing_structure (doc : Doc)
    (h : sectionMissing doc ∨ keyMissingInPresent doc) :
    (∃ m, load_config (some (Except.ok doc)) =
        Except.error (LoadError.configInvalid m))
    ∧ ∀ d, load_config (some (Except.ok doc)) ≠ Except.ok d := by
  obtain ⟨m, hm⟩ := validate_error_of_missing doc h
  constructor
  · refine ⟨m, ?_⟩
    rw [load_config_parsed, hm]
  · intro d
    rw [load_config_parsed, hm]
    simp

/-- A document that has every required section except sensors, used as the
concrete failing document of C8. -/
def docNoSensors : Doc :=
  [("camera", []), ("collection", []), ("classification", []),
   ("ui", []), ("paths", [])]

/-- Witness for C8 at the concrete document missing the sensors section. -/
theorem C8_witness :
    (sectionMissing docNoSensors ∨ keyMissingInPresent docNoSensors)
    ∧ ((∃ m, load_config (some (Except.ok docNoSensors)) =
          Except.error (LoadError.configInvalid m))
       ∧ ∀ d, load_config (some (Except.ok docNoSensors)) ≠ Except.ok d) := by
  have h : sectionMissing docNoSensors ∨ keyMissingInPresent docNoSensors :=
    Or.inl ⟨"sensors", by decide, rfl⟩
  exact ⟨h, C8_load_missing_structure docNoSensors h⟩

/-- C7: save_config is atomic with respect to the in-memory document: on
any I/O failure the in-memory configuration is untouched, the failure is
reported (False returned and the error dialog shown), and the in-memory
document is replaced by the new one only on confirmed write success. -/
theorem C7_save_in_memory_atomicity (new : Doc) (s : ConfigState) :
    (∀ d m, (save_config (SaveOutcome.failure d m) new s).1.mem = s.mem
      ∧ (save_config (SaveOutcome.failure d m) new s).2 = false
      ∧ (save_config (SaveOutcome.failure d m) new s).1.dialogs =
          ("Error", "Error saving settings: " ++ m) :: s.dialogs)
    ∧ (save_config SaveOutcome.success new s).1.mem = new
    ∧ (save_config SaveOutcome.success new s).2 = true :=
  ⟨fun _ _ => ⟨rfl, rfl, rfl⟩, rfl, rfl⟩

/-- C9: for every valid configuration document, a successful save followed
by a load yields exactly the saved document. -/
theorem C9_round_trip (doc : Doc) (s : ConfigState)
    (hv : validate_config doc = Except.ok ()) :
    (save_config SaveOutcome.success doc s).2 = true
    ∧ load_config (save_config SaveOutcome.success doc s).1.disk =
        Except.ok doc := by
  refine ⟨rfl, ?_⟩
  show load_config (some (Except.ok doc)) = Except.ok doc
  rw [load_config_parsed, hv]

/-- A fully populated configuration document: every required section with
every required key (values are arbitrary JSON). -/
def validDoc : Doc :=
  [("camera",
     [("image_width", JVal.jnum 224), ("image_height", JVal.jnum 224),
      ("capture_format", JVal.jstr "jpg"), ("quality", JVal.jnum 95)]),
   ("collection",
     [("trigger_mode", JVal.jstr "auto"), ("auto_capture_interval", JVal.jnum 2),
      ("images_per_session", JVal.jnum 3)]),
   ("classification",
     [("model_path", JVal.jstr "models/pretrained/model.tflite"),
      ("confidence_threshold", JVal.jnum 1), ("auto_classify_interval", JVal.jnum 3)]),
   ("ui",
     [("font_family", JVal.jstr "Arial"), ("base_screen", JVal.jnum 800),
      ("font_sizes", JVal.jobj []), ("window_sizing", JVal.jobj []),
      ("colors", JVal.jobj [])]),
   ("paths",
     [("captured_images", JVal.jstr "data/images"),
      ("classification_results", JVal.jstr "data/results"),
      ("models", JVal.jstr "models"), ("logo", JVal.jstr "logo.png")]),
   ("sensors",
     [("ir_sensor_pin", JVal.jnum 17), ("voltage_threshold", JVal.jnum 2),
      ("trigger_delay_ms", JVal.jnum 100)])]

/-- Witness for C9 at a concrete valid document and empty starting state. -/
theorem C9_witness :
    validate_config validDoc = Except.ok ()
    ∧ ((save_config SaveOutcome.success validDoc
          { disk := none, mem := [], dialogs := [] }).2 = true
       ∧ load_config (save_config SaveOutcome.success validDoc
            { disk := none, mem := [], dialogs := [] }).1.disk =
          Except.ok validDoc) :=
  ⟨rfl, C9_round_trip validDoc { disk := none, mem := [], dialogs := [] } rfl⟩

/-! ## Mode machine: basic step lemmas -/

/-- A collection worker statement never touches the classifying flag, and
the only collecting-flag write it performs is clearing it (auto stop). -/
lemma collection_loop_step_flags (env : Env) (l : Bool) (pc : WorkerPC) (s : HWState) :
    ((collection_loop_step env l pc s).2.is_classifying = s.is_classifying)
    ∧ ((collection_loop_step env l pc s).2.is_collecting = true →
        s.is_collecting = true) := by
  cases pc <;> simp only [collection_loop_step] <;>
    (try split) <;> (try split) <;> simp_all

/-- A classification worker statement never touches either mode flag. -/
lemma classification_loop_step_flags (pc : WorkerPC) (s : HWState) :
    ((classification_loop_step pc s).2.is_collecting = s.is_collecting)
    ∧ ((classification_loop_step pc s).2.is_classifying = s.is_classifying) := by
  cases pc <;> simp only [classification_loop_step] <;> (try split) <;> simp_all

/-- Worker statements leave the worker lists of the shared state alone
(spawning happens only in the start entry points). -/
lemma collection_loop_step_workers (env : Env) (l : Bool) (pc : WorkerPC) (s : HWState) :
    ((collection_loop_step env l pc s).2.col_workers = s.col_workers)
    ∧ ((collection_loop_step env l pc s).2.cls_workers = s.cls_workers) := by
  cases pc <;> simp only [collection_loop_step] <;>
    (try split) <;> (try split) <;> simp_all

lemma classification_loop_step_workers (pc : WorkerPC) (s : HWState) :
    ((classification_loop_step pc s).2.col_workers = s.col_workers)
    ∧ ((classification_loop_step pc s).2.cls_workers = s.cls_workers) := by
  cases pc <;> simp only [classification_loop_step] <;> (try split) <;> simp_all

/-- Flag behavior of a full collection worker step. -/
lemma stepColWorker_flags (env : Env) (i : Nat) (s : HWState) :
    ((stepColWorker env i s).is_classifying = s.is_classifying)
    ∧ ((stepColWorker env i s).is_collecting = true → s.is_collecting = true) := by
  unfold stepColWorker
  cases h : nthWorker s.col_workers i with
  | none => exact ⟨rfl, fun hh => hh⟩
  | some pc =>
    dsimp only
    exact ⟨(collection_loop_step_flags env _ pc s).1,
           (collection_loop_step_flags env _ pc s).2⟩

/-- Flag behavior of a full classification worker step. -/
lemma stepClsWorker_flags (i : Nat) (s : HWState) :
    ((stepClsWorker i s).is_collecting = s.is_collecting)
    ∧ ((stepClsWorker i s).is_classifying = s.is_classifying) := by
  unfold stepClsWorker
  cases h : nthWorker s.cls_workers i with
  | none => exact ⟨rfl, rfl⟩
  | some pc =>
    dsimp only
    exact ⟨(classification_loop_step_flags pc s).1,
           (classification_loop_step_flags pc s).2⟩

/-- Worker-only executions are executions of the whole system. -/
lemma reach_colRun (env : Env) (n : Nat) :
    ∀ s, Relation.ReflTransGen (Step env) s (colRun env n s) := by
  induction n with
  | zero => intro s; exact Relation.ReflTransGen.refl
  | succ k ih =>
    intro s
    exact Relation.ReflTransGen.head (Step.colWorker s 0) (ih (stepColWorker env 0 s))

lemma reach_clsRun (env : Env) (n : Nat) :
    ∀ s, Relation.ReflTransGen (Step env) s (clsRun n s) := by
  induction n with
  | zero => intro s; exact Relation.ReflTransGen.refl
  | succ k ih =>
    intro s
    exact Relation.ReflTransGen.head (Step.clsWorker s 0) (ih (stepClsWorker 0 s))

/-- Splitting a worker-only run. -/
lemma colRun_add (env : Env) :
    ∀ a b s, colRun env (a + b) s = colRun env b (colRun env a s) := by
  intro a
  induction a with
  | zero =>
    intro b s
    rw [Nat.zero_add]
    rfl
  | succ k ih =>
    intro b s
    have h1 : k + 1 + b = (k + b) + 1 := by omega
    rw [h1]
    show colRun env (k + b) (stepColWorker env 0 s) = _
    rw [ih b (stepColWorker env 0 s)]
    rfl

lemma clsRun_add :
    ∀ a b s, clsRun (a + b) s = clsRun b (clsRun a s) := by
  intro a
  induction a with
  | zero =>
    intro b s
    rw [Nat.zero_add]
    rfl
  | succ k ih =>
    intro b s
    have h1 : k + 1 + b = (k + b) + 1 := by omega
    rw [h1]
    show clsRun (k + b) (stepClsWorker 0 s) = _
    rw [ih b (stepClsWorker 0 s)]
    rfl

/-- The single collection worker passes its while check when the flag is up
and the session is not complete. -/
lemma stepCol_loopHead_go (env : Env) (s : HWState)
    (hw : s.col_workers = [WorkerPC.loopHead]) (hc : s.is_collecting = true)
    (hlt : s.image_count < env.images_per_session) :
    stepColWorker env 0 s = { s with col_workers := [WorkerPC.capture] } := by
  obtain ⟨ic, icl, imc, cc, cw, sw, pg, cp, sp, wn, er⟩ := s
  replace hw : cw = [WorkerPC.loopHead] := hw
  replace hc : ic = true := hc
  replace hlt : imc < env.images_per_session := hlt
  subst hw
  subst hc
  unfold stepColWorker
  dsimp only [nthWorker, collection_loop_step]
  rw [if_pos (⟨rfl, hlt⟩ : true = true ∧ imc < env.images_per_session)]
  rfl

/-- The single collection worker leaves its while loop when the check
fails (flag down or session complete). -/
lemma stepCol_loopHead_stop (env : Env) (s : HWState)
    (hw : s.col_workers = [WorkerPC.loopHead])
    (h : ¬(s.is_collecting = true ∧ s.image_count < env.images_per_session)) :
    stepColWorker env 0 s = { s with col_workers := [WorkerPC.autoStop] } := by
  obtain ⟨ic, icl, imc, cc, cw, sw, pg, cp, sp, wn, er⟩ := s
  replace hw : cw = [WorkerPC.loopHead] := hw
  replace h : ¬(ic = true ∧ imc < env.images_per_session) := h
  subst hw
  unfold stepColWorker
  dsimp only [nthWorker, collection_loop_step]
  rw [if_neg h]
  rfl

/-! ## C1, C2, C3 -/

/-- Every transition preserves the exclusion of the two mode flags. -/
lemma step_preserves_flag_excl (env : Env) {a b : HWState} (h : Step env a b)
    (ha : ¬(a.is_collecting = true ∧ a.is_classifying = true)) :
    ¬(b.is_collecting = true ∧ b.is_classifying = true) := by
  cases h with
  | startCol =>
    by_cases hc : a.is_classifying = true
    · unfold start_collection_mode
      rw [if_pos hc]
      exact ha
    · unfold start_collection_mode
      rw [if_neg hc]
      intro hcon
      exact hc hcon.2
  | stopCol => simp [stop_collection_mode]
  | startCls =>
    by_cases hc : a.is_collecting = true
    · unfold start_classification_mode
      rw [if_pos hc]
      exact ha
    · by_cases hm : env.model_exists = false
      · unfold start_classification_mode
        rw [if_neg hc, if_pos hm]
        exact ha
      · unfold start_classification_mode
        rw [if_neg hc, if_neg hm]
        intro hcon
        exact hc hcon.1
  | stopCls => simp [stop_classification_mode]
  | colWorker i =>
    intro hcon
    obtain ⟨h1, h2⟩ := hcon
    rw [(stepColWorker_flags env i a).1] at h2
    exact ha ⟨(stepColWorker_flags env i a).2 h1, h2⟩
  | clsWorker i =>
    intro hcon
    obtain ⟨h1, h2⟩ := hcon
    rw [(stepClsWorker_flags i a).1] at h1
    rw [(stepClsWorker_flags i a).2] at h2
    exact ha ⟨h1, h2⟩

/-- C1 (amended): in every reachable state the two mode flags are never
simultaneously set, and a start request while the opposing flag is set is
rejected with the user-facing warning and changes nothing else: no mode
change, no counter reset, no worker spawn.  (The literal claim, phrased
over live workers instead of flags, fails: see the counterexample, where a
worker of the stopped opposing mode is still alive, abandoned by the
bounded join, while the new mode is active.) -/
theorem C1_flag_mutual_exclusion (env : Env) :
    (∀ s, Reachable env s → ¬(s.is_collecting = true ∧ s.is_classifying = true))
    ∧ (∀ s, s.is_classifying = true →
        start_collection_mode s =
          { s with warnings := stopClassificationFirst :: s.warnings })
    ∧ (∀ s, s.is_collecting = true →
        start_classification_mode env s =
          { s with warnings := stopCollectionFirst :: s.warnings }) := by
  refine ⟨?_, ?_, ?_⟩
  · intro s h
    unfold Reachable at h
    induction h with
    | refl => simp [initState]
    | tail hab hbc ih => exact step_preserves_flag_excl env hbc ih
  · intro s h
    unfold start_collection_mode
    rw [if_pos h]
  · intro s h
    unfold start_classification_mode
    rw [if_pos h]

/-- Environment with the default session size and the model present. -/
def env0 : Env := { images_per_session := 100, model_exists := true }

/-- Witness for C1 at the initial state and at concrete conflicting
states. -/
theorem C1_flag_mutual_exclusion_witness :
    (¬(initState.is_collecting = true ∧ initState.is_classifying = true))
    ∧ start_collection_mode (start_classification_mode env0 initState) =
        { start_classification_mode env0 initState with
          warnings := stopClassificationFirst ::
            (start_classification_mode env0 initState).warnings }
    ∧ start_classification_mode env0 (start_collection_mode initState) =
        { start_collection_mode initState with
          warnings := stopCollectionFirst ::
            (start_collection_mode initState).warnings } :=
  ⟨(C1_flag_mutual_exclusion env0).1 initState Relation.ReflTransGen.refl,
   (C1_flag_mutual_exclusion env0).2.1 _ rfl,
   (C1_flag_mutual_exclusion env0).2.2 _ rfl⟩

/-- The run: start classification, let its worker run into its interval
sleep, stop classification (the one-second join times out against the
three-second sleep, abandoning the live worker), then start collection. -/
def c1_state : HWState :=
  start_collection_mode
    (stop_classification_mode (clsRun 5 (start_classification_mode env0 initState)))

/-- C1 counterexample: a reachable state that is Collecting while a
classification worker is still alive (asleep in its interval wait), so
the claim as stated over live workers is false. -/
theorem C1_counterexample :
    Reachable env0 c1_state ∧ c1_state.is_collecting = true
    ∧ aliveWorkers c1_state.cls_workers = 1 := by
  refine ⟨?_, by decide, by decide⟩
  exact (((Relation.ReflTransGen.single (Step.startCls initState)).trans
      (reach_clsRun env0 5 _)).tail (Step.stopCls _)).tail (Step.startCol _)

/-- One completed collection cycle after a fresh start. -/
def c2_mid : HWState := colRun env0 6 (start_collection_mode initState)

/-- A second startCollection() call issued while already Collecting. -/
def c2_state : HWState := start_collection_mode c2_mid

/-- C2 counterexample: calling startCollection() while already Collecting
is not a no-op: the already-running session (one live worker, one image
captured) gets its counter reset to zero and a second live worker is
spawned. -/
theorem C2_counterexample :
    Reachable env0 c2_state
    ∧ c2_mid.is_collecting = true
    ∧ c2_mid.image_count = 1
    ∧ aliveWorkers c2_mid.col_workers = 1
    ∧ c2_state.image_count = 0
    ∧ aliveWorkers c2_state.col_workers = 2 := by
  refine ⟨?_, by decide, by decide, by decide, by decide, by decide⟩
  exact ((Relation.ReflTransGen.single (Step.startCol initState)).trans
      (reach_colRun env0 6 _)).tail (Step.startCol _)

/-- C2 (amended): a same-mode start request is not guarded by the code:
while it leaves both mode flags unchanged, it resets the session counter
to zero and spawns an additional worker. -/
theorem C2_same_mode_restart (env : Env) :
    (∀ s, s.is_collecting = true → s.is_classifying = false →
      (start_collection_mode s).is_collecting = s.is_collecting
      ∧ (start_collection_mode s).is_classifying = s.is_classifying
      ∧ (start_collection_mode s).image_count = 0
      ∧ (start_collection_mode s).col_workers = s.col_workers ++ [WorkerPC.loopHead])
    ∧ (∀ s, s.is_classifying = true → s.is_collecting = false →
        env.model_exists = true →
      (start_classification_mode env s).is_classifying = s.is_classifying
      ∧ (start_classification_mode env s).is_collecting = s.is_collecting
      ∧ (start_classification_mode env s).classification_count = 0
      ∧ (start_classification_mode env s).cls_workers =
          s.cls_workers ++ [WorkerPC.loopHead]) := by
  constructor
  · intro s h1 h2
    unfold start_collection_mode
    rw [if_neg (by simp [h2])]
    exact ⟨h1.symm, rfl, rfl, rfl⟩
  · intro s h1 h2 hm
    unfold start_classification_mode
    rw [if_neg (by simp [h2]), if_neg (by simp [hm])]
    exact ⟨h1.symm, rfl, rfl, rfl⟩

/-- Witness for the amended C2 at concrete double-start states. -/
theorem C2_same_mode_restart_witness :
    ((start_collection_mode (start_collection_mode initState)).image_count = 0
     ∧ (start_collection_mode (start_collection_mode initState)).col_workers =
        (start_collection_mode initState).col_workers ++ [WorkerPC.loopHead])
    ∧ ((start_classification_mode env0
          (start_classification_mode env0 initState)).classification_count = 0
     ∧ (start_classification_mode env0
          (start_classification_mode env0 initState)).cls_workers =
        (start_classification_mode env0 initState).cls_workers ++ [WorkerPC.loopHead]) :=
  ⟨⟨((C2_same_mode_restart env0).1 _ rfl rfl).2.2.1,
    ((C2_same_mode_restart env0).1 _ rfl rfl).2.2.2⟩,
   ⟨((C2_same_mode_restart env0).2 _ rfl rfl rfl).2.2.1,
    ((C2_same_mode_restart env0).2 _ rfl rfl rfl).2.2.2⟩⟩

/-- C3: when the model artifact is absent, startClassification() (called
outside collection mode) only records the diagnostic error dialog: the
whole state is otherwise untouched, so from Standby the mode stays
Standby, items_classified keeps its value, and no worker is spawned. -/
theorem C3_model_missing_rejected (env : Env) (s : HWState)
    (hc : s.is_collecting = false) (hm : env.model_exists = false) :
    start_classification_mode env s = { s with errors := noTrainedModel :: s.errors }
    ∧ (start_classification_mode env s).is_classifying = s.is_classifying
    ∧ (start_classification_mode env s).classification_count = s.classification_count
    ∧ (start_classification_mode env s).cls_workers = s.cls_workers := by
  have he : start_classification_mode env s =
      { s with errors := noTrainedModel :: s.errors } := by
    unfold start_classification_mode
    rw [if_neg (by simp [hc]), if_pos hm]
  exact ⟨he, by rw [he], by rw [he], by rw [he]⟩

/-- Environment with the model artifact absent. -/
def envNoModel : Env := { images_per_session := 100, model_exists := false }

/-- Witness for C3 at the initial (Standby) state. -/
theorem C3_witness :
    initState.is_collecting = false ∧ envNoModel.model_exists = false
    ∧ (start_classification_mode envNoModel initState =
        { initState with errors := noTrainedModel :: initState.errors }
       ∧ (start_classification_mode envNoModel initState).is_classifying =
          initState.is_classifying
       ∧ (start_classification_mode envNoModel initState).classification_count =
          initState.classification_count
       ∧ (start_classification_mode envNoModel initState).cls_workers =
          initState.cls_workers) :=
  ⟨rfl, rfl, C3_model_missing_rejected envNoModel initState rfl rfl⟩

/-! ## C4 and C6: the worker loops run to their specified end -/

/-- One full collection cycle (check, capture, increment, publish, guarded
wait) of the single collection worker, run without interference. -/
lemma col_cycle (env : Env) (s : HWState)
    (hw : s.col_workers = [WorkerPC.loopHead]) (hc : s.is_collecting = true)
    (hlt : s.image_count < env.images_per_session) :
    colRun env 6 s = { s with image_count := s.image_count + 1,
                              col_published := (s.image_count + 1) :: s.col_published } := by
  obtain ⟨ic, icl, imc, cc, cw, sw, pg, cp, sp, wn, er⟩ := s
  replace hw : cw = [WorkerPC.loopHead] := hw
  replace hc : ic = true := hc
  replace hlt : imc < env.images_per_session := hlt
  subst hw
  subst hc
  show colRun env 5 (stepColWorker env 0
    ⟨true, icl, imc, cc, [WorkerPC.loopHead], sw, pg, cp, sp, wn, er⟩) = _
  rw [stepCol_loopHead_go env
    ⟨true, icl, imc, cc, [WorkerPC.loopHead], sw, pg, cp, sp, wn, er⟩ rfl rfl hlt]
  rfl

/-- When the session count is reached the collection worker leaves its
loop and auto-stops: stop_collection_mode clears the flag from the worker
thread, whose self-join then raises, killing the worker before it can
switch the page. -/
lemma col_finish (env : Env) (s : HWState)
    (hw : s.col_workers = [WorkerPC.loopHead]) (hc : s.is_collecting = true)
    (hge : ¬(s.image_count < env.images_per_session)) :
    colRun env 2 s = { s with is_collecting := false,
                              col_workers := [WorkerPC.exited] } := by
  obtain ⟨ic, icl, imc, cc, cw, sw, pg, cp, sp, wn, er⟩ := s
  replace hw : cw = [WorkerPC.loopHead] := hw
  replace hc : ic = true := hc
  replace hge : ¬(imc < env.images_per_session) := hge
  subst hw
  subst hc
  show colRun env 1 (stepColWorker env 0
    ⟨true, icl, imc, cc, [WorkerPC.loopHead], sw, pg, cp, sp, wn, er⟩) = _
  rw [stepCol_loopHead_stop env
    ⟨true, icl, imc, cc, [WorkerPC.loopHead], sw, pg, cp, sp, wn, er⟩ rfl
    (fun hcon => hge hcon.2)]
  rfl

/-- k collection cycles advance the counter by k and publish each new
value, as long as the session bound is not exceeded. -/
lemma col_cycles (env : Env) :
    ∀ k s, s.col_workers = [WorkerPC.loopHead] → s.is_collecting = true →
      s.image_count + k ≤ env.images_per_session →
      colRun env (6 * k) s = { s with image_count := s.image_count + k,
                                      col_published := pubsFrom s.image_count k s.col_published } := by
  intro k
  induction k with
  | zero =>
    intro s hw hc hle
    show s = _
    rfl
  | succ k ih =>
    intro s hw hc hle
    have h6 : 6 * (k + 1) = 6 + 6 * k := by ring
    rw [h6, colRun_add env 6 (6 * k) s, col_cycle env s hw hc (by omega),
        ih { s with image_count := s.image_count + 1,
                    col_published := (s.image_count + 1) :: s.col_published }
           hw hc (by show s.image_count + 1 + k ≤ env.images_per_session; omega)]
    have e1 : s.image_count + 1 + k = s.image_count + (k + 1) := by omega
    show ({ s with image_count := s.image_count + 1 + k,
                   col_published := pubsFrom (s.image_count + 1) k
                     ((s.image_count + 1) :: s.col_published) } : HWState) = _
    rw [e1]
    rfl

/-- C4: from Standby, a fresh startCollection() with the configured
session size n runs exactly n capture cycles (the worker alone, no stop
call): after 6n worker statements the mode is still Collecting with
images_captured = n, and two statements later (the failed while check and
the auto-stop) the system is back in Standby with images_captured = n and
the worker gone. -/
theorem C4_collection_auto_stops (env : Env) (s : HWState)
    (_h1 : s.is_collecting = false) (h2 : s.is_classifying = false)
    (h3 : s.col_workers = []) :
    (colRun env (6 * env.images_per_session)
        (start_collection_mode s)).is_collecting = true
    ∧ (colRun env (6 * env.images_per_session)
        (start_collection_mode s)).image_count = env.images_per_session
    ∧ (colRun env (6 * env.images_per_session + 2)
        (start_collection_mode s)).is_collecting = false
    ∧ (colRun env (6 * env.images_per_session + 2)
        (start_collection_mode s)).is_classifying = false
    ∧ (colRun env (6 * env.images_per_session + 2)
        (start_collection_mode s)).image_count = env.images_per_session
    ∧ (colRun env (6 * env.images_per_session + 2)
        (start_collection_mode s)).col_workers = [WorkerPC.exited] := by
  have hs0 : start_collection_mode s =
      { s with is_collecting := true, image_count := 0, page := "collection",
               col_workers := [WorkerPC.loopHead] } := by
    unfold start_collection_mode
    rw [if_neg (by simp [h2]), h3]
    rfl
  have hcyc := col_cycles env env.images_per_session
    ({ s with is_collecting := true, image_count := 0, page := "collection",
              col_workers := [WorkerPC.loopHead] }) rfl rfl
    (by show (0 : Nat) + env.images_per_session ≤ env.images_per_session; omega)
  have hfin := col_finish env
    (colRun env (6 * env.images_per_session)
      { s with is_collecting := true, image_count := 0, page := "collection",
               col_workers := [WorkerPC.loopHead] })
    (by rw [hcyc])
    (by rw [hcyc])
    (by rw [hcyc]
        show ¬((0 : Nat) + env.images_per_session < env.images_per_session)
        omega)
  refine ⟨?_, ?_, ?_, ?_, ?_, ?_⟩
  · rw [hs0, hcyc]
  · rw [hs0, hcyc]
    show (0 : Nat) + env.images_per_session = env.images_per_session
    omega
  · rw [hs0, colRun_add env (6 * env.images_per_session) 2, hfin]
  · rw [hs0, colRun_add env (6 * env.images_per_session) 2, hfin, hcyc]
    exact h2
  · rw [hs0, colRun_add env (6 * env.images_per_session) 2, hfin, hcyc]
    show (0 : Nat) + env.images_per_session = env.images_per_session
    omega
  · rw [hs0, colRun_add env (6 * env.images_per_session) 2, hfin]

/-- Environment with three images per session, as in the worked example of
the spec. -/
def env3 : Env := { images_per_session := 3, model_exists := true }

/-- Witness for C4 with images_per_session = 3 from the initial state. -/
theorem C4_witness :
    (initState.is_collecting = false ∧ initState.is_classifying = false
     ∧ initState.col_workers = [])
    ∧ ((colRun env3 (6 * env3.images_per_session)
          (start_collection_mode initState)).is_collecting = true
       ∧ (colRun env3 (6 * env3.images_per_session)
          (start_collection_mode initState)).image_count = env3.images_per_session
       ∧ (colRun env3 (6 * env3.images_per_session + 2)
          (start_collection_mode initState)).is_collecting = false
       ∧ (colRun env3 (6 * env3.images_per_session + 2)
          (start_collection_mode initState)).is_classifying = false
       ∧ (colRun env3 (6 * env3.images_per_session + 2)
          (start_collection_mode initState)).image_count = env3.images_per_session
       ∧ (colRun env3 (6 * env3.images_per_session + 2)
          (start_collection_mode initState)).col_workers = [WorkerPC.exited]) :=
  ⟨⟨rfl, rfl, rfl⟩, C4_collection_auto_stops env3 initState rfl rfl rfl⟩

/-- One full classification cycle of the single classification worker. -/
lemma cls_cycle (s : HWState) (hw : s.cls_workers = [WorkerPC.loopHead])
    (hc : s.is_classifying = true) :
    clsRun 6 s = { s with classification_count := s.classification_count + 1,
                          cls_published := (s.classification_count + 1) :: s.cls_published } := by
  obtain ⟨ic, icl, imc, cc, cw, sw, pg, cp, sp, wn, er⟩ := s
  replace hw : sw = [WorkerPC.loopHead] := hw
  replace hc : icl = true := hc
  subst hw
  subst hc
  rfl

/-- Any number of classification cycles: there is no ceiling hypothesis. -/
lemma cls_cycles :
    ∀ k s, s.cls_workers = [WorkerPC.loopHead] → s.is_classifying = true →
      clsRun (6 * k) s =
        { s with classification_count := s.classification_count + k,
                 cls_published := pubsFrom s.classification_count k s.cls_published } := by
  intro k
  induction k with
  | zero =>
    intro s hw hc
    show s = _
    rfl
  | succ k ih =>
    intro s hw hc
    have h6 : 6 * (k + 1) = 6 + 6 * k := by ring
    rw [h6, clsRun_add 6 (6 * k) s, cls_cycle s hw hc,
        ih { s with classification_count := s.classification_count + 1,
                    cls_published := (s.classification_count + 1) :: s.cls_published }
           hw hc]
    have e1 : s.classification_count + 1 + k = s.classification_count + (k + 1) := by
      omega
    show ({ s with classification_count := s.classification_count + 1 + k,
                   cls_published := pubsFrom (s.classification_count + 1) k
                     ((s.classification_count + 1) :: s.cls_published) } : HWState) = _
    rw [e1]
    rfl

/-- Classification worker statements never write either mode flag, at any
fuel. -/
lemma clsRun_flags :
    ∀ fuel s, (clsRun fuel s).is_classifying = s.is_classifying
      ∧ (clsRun fuel s).is_collecting = s.is_collecting := by
  intro fuel
  induction fuel with
  | zero => intro s; exact ⟨rfl, rfl⟩
  | succ k ih =>
    intro s
    exact ⟨(ih (stepClsWorker 0 s)).1.trans (stepClsWorker_flags 0 s).2,
           (ih (stepClsWorker 0 s)).2.trans (stepClsWorker_flags 0 s).1⟩

/-- C6: the classification worker loops with no count ceiling:
items_classified grows by exactly one per completed cycle with each value
published, the worker is back at its while check after every cycle, and no
worker statement ever clears the classifying flag (the run never leaves
Classifying by itself, at any fuel); only the explicit stop entry point
clears it. -/
theorem C6_classification_runs_until_stopped :
    (∀ k s, s.cls_workers = [WorkerPC.loopHead] → s.is_classifying = true →
      (clsRun (6 * k) s).classification_count = s.classification_count + k
      ∧ (clsRun (6 * k) s).cls_workers = [WorkerPC.loopHead]
      ∧ (clsRun (6 * k) s).is_classifying = true
      ∧ (clsRun (6 * k) s).cls_published =
          pubsFrom s.classification_count k s.cls_published)
    ∧ (∀ fuel s, (clsRun fuel s).is_classifying = s.is_classifying)
    ∧ (∀ s, (stop_classification_mode s).is_classifying = false) := by
  refine ⟨?_, fun fuel s => (clsRun_flags fuel s).1, fun s => rfl⟩
  intro k s hw hc
  rw [cls_cycles k s hw hc]
  exact ⟨rfl, hw, hc, rfl⟩

/-- Witness for C6: two cycles after a fresh classification start. -/
theorem C6_witness :
    ((start_classification_mode env0 initState).cls_workers = [WorkerPC.loopHead]
     ∧ (start_classification_mode env0 initState).is_classifying = true)
    ∧ ((clsRun (6 * 2) (start_classification_mode env0 initState)).classification_count
         = (start_classification_mode env0 initState).classification_count + 2
       ∧ (clsRun (6 * 2) (start_classification_mode env0 initState)).cls_workers
         = [WorkerPC.loopHead]
       ∧ (clsRun (6 * 2) (start_classification_mode env0 initState)).is_classifying
         = true
       ∧ (clsRun (6 * 2) (start_classification_mode env0 initState)).cls_published
         = pubsFrom (start_classification_mode env0 initState).classification_count 2
             (start_classification_mode env0 initState).cls_published)
    ∧ (clsRun 7 initState).is_classifying = initState.is_classifying :=
  ⟨⟨rfl, rfl⟩,
   C6_classification_runs_until_stopped.1 2 _ rfl rfl,
   C6_classification_runs_until_stopped.2.1 7 initState⟩

/-! ## C5 and C10 -/

/-- Program counters outside the capture-increment-publish section of the
loop body: positions at or after an observation of the running flag. -/
def notMidCycle (pc : WorkerPC) : Prop :=
  pc ≠ WorkerPC.capture ∧ pc ≠ WorkerPC.increment ∧ pc ≠ WorkerPC.publish

/-- With the flag down, a collection worker at an observation point only
moves its program counter toward exit: the shared state is untouched. -/
lemma colStopped_step (env : Env) (s : HWState) (pc : WorkerPC)
    (hf : s.is_collecting = false) (hw : s.col_workers = [pc])
    (hpc : notMidCycle pc) :
    ∃ pc2, stepColWorker env 0 s = { s with col_workers := [pc2] }
      ∧ notMidCycle pc2 := by
  obtain ⟨ic, icl, imc, cc, cw, sw, pg, cp, sp, wn, er⟩ := s
  replace hf : ic = false := hf
  replace hw : cw = [pc] := hw
  subst hf
  subst hw
  obtain ⟨n1, n2, n3⟩ := hpc
  cases pc with
  | loopHead => exact ⟨WorkerPC.autoStop, rfl, by simp [notMidCycle]⟩
  | capture => exact absurd rfl n1
  | increment => exact absurd rfl n2
  | publish => exact absurd rfl n3
  | sleepCheck => exact ⟨WorkerPC.loopHead, rfl, by simp [notMidCycle]⟩
  | sleeping => exact ⟨WorkerPC.loopHead, rfl, by simp [notMidCycle]⟩
  | autoStop => exact ⟨WorkerPC.exited, rfl, by simp [notMidCycle]⟩
  | exited => exact ⟨WorkerPC.exited, rfl, by simp [notMidCycle]⟩

/-- Once the collection worker has observed the cleared flag, no amount of
further execution increments the counter or publishes a value. -/
lemma colStopped_run (env : Env) :
    ∀ fuel s pc, s.is_collecting = false → s.col_workers = [pc] →
      notMidCycle pc →
      (colRun env fuel s).image_count = s.image_count
      ∧ (colRun env fuel s).col_published = s.col_published := by
  intro fuel
  induction fuel with
  | zero => intro s pc hf hw hpc; exact ⟨rfl, rfl⟩
  | succ k ih =>
    intro s pc hf hw hpc
    obtain ⟨pc2, he, hpc2⟩ := colStopped_step env s pc hf hw hpc
    show (colRun env k (stepColWorker env 0 s)).image_count = s.image_count
      ∧ (colRun env k (stepColWorker env 0 s)).col_published = s.col_published
    rw [he]
    exact ih { s with col_workers := [pc2] } pc2 hf rfl hpc2

/-- Classification analogue of colStopped_step. -/
lemma clsStopped_step (s : HWState) (pc : WorkerPC)
    (hf : s.is_classifying = false) (hw : s.cls_workers = [pc])
    (hpc : notMidCycle pc) :
    ∃ pc2, stepClsWorker 0 s = { s with cls_workers := [pc2] }
      ∧ notMidCycle pc2 := by
  obtain ⟨ic, icl, imc, cc, cw, sw, pg, cp, sp, wn, er⟩ := s
  replace hf : icl = false := hf
  replace hw : sw = [pc] := hw
  subst hf
  subst hw
  obtain ⟨n1, n2, n3⟩ := hpc
  cases pc with
  | loopHead => exact ⟨WorkerPC.exited, rfl, by simp [notMidCycle]⟩
  | capture => exact absurd rfl n1
  | increment => exact absurd rfl n2
  | publish => exact absurd rfl n3
  | sleepCheck => exact ⟨WorkerPC.loopHead, rfl, by simp [notMidCycle]⟩
  | sleeping => exact ⟨WorkerPC.loopHead, rfl, by simp [notMidCycle]⟩
  | autoStop => exact ⟨WorkerPC.exited, rfl, by simp [notMidCycle]⟩
  | exited => exact ⟨WorkerPC.exited, rfl, by simp [notMidCycle]⟩

/-- Classification analogue of colStopped_run. -/
lemma clsStopped_run :
    ∀ fuel s pc, s.is_classifying = false → s.cls_workers = [pc] →
      notMidCycle pc →
      (clsRun fuel s).classification_count = s.classification_count
      ∧ (clsRun fuel s).cls_published = s.cls_published := by
  intro fuel
  induction fuel with
  | zero => intro s pc hf hw hpc; exact ⟨rfl, rfl⟩
  | succ k ih =>
    intro s pc hf hw hpc
    obtain ⟨pc2, he, hpc2⟩ := clsStopped_step s pc hf hw hpc
    show (clsRun k (stepClsWorker 0 s)).classification_count = s.classification_count
      ∧ (clsRun k (stepClsWorker 0 s)).cls_published = s.cls_published
    rw [he]
    exact ih { s with cls_workers := [pc2] } pc2 hf rfl hpc2

/-- C5: in both worker loops a cycle is capture, then increment, then
publication of the freshly incremented value, then the guarded interval
wait, with the running flag consulted right before the wait (the sleep
guard) and right after it (the next while check); and once a worker has
observed the flag cleared at one of these observation points, no further
execution of that worker increments its counter or publishes a value. -/
theorem C5_cycle_order_and_prompt_stop (env : Env) :
    (∀ s, s.col_workers = [WorkerPC.loopHead] → s.is_collecting = true →
        s.image_count < env.images_per_session →
      (colRun env 1 s).col_workers = [WorkerPC.capture]
      ∧ (colRun env 2 s).col_workers = [WorkerPC.increment]
      ∧ (colRun env 2 s).image_count = s.image_count
      ∧ (colRun env 2 s).col_published = s.col_published
      ∧ (colRun env 3 s).col_workers = [WorkerPC.publish]
      ∧ (colRun env 3 s).image_count = s.image_count + 1
      ∧ (colRun env 3 s).col_published = s.col_published
      ∧ (colRun env 4 s).col_workers = [WorkerPC.sleepCheck]
      ∧ (colRun env 4 s).col_published = (s.image_count + 1) :: s.col_published
      ∧ (colRun env 5 s).col_workers = [WorkerPC.sleeping]
      ∧ (colRun env 6 s).col_workers = [WorkerPC.loopHead]
      ∧ (colRun env 6 s).image_count = s.image_count + 1)
    ∧ (∀ s pc, s.is_collecting = false → s.col_workers = [pc] →
        notMidCycle pc →
        ∀ fuel, (colRun env fuel s).image_count = s.image_count
          ∧ (colRun env fuel s).col_published = s.col_published)
    ∧ (∀ s, s.cls_workers = [WorkerPC.loopHead] → s.is_classifying = true →
      (clsRun 1 s).cls_workers = [WorkerPC.capture]
      ∧ (clsRun 2 s).cls_workers = [WorkerPC.increment]
      ∧ (clsRun 2 s).classification_count = s.classification_count
      ∧ (clsRun 2 s).cls_published = s.cls_published
      ∧ (clsRun 3 s).cls_workers = [WorkerPC.publish]
      ∧ (clsRun 3 s).classification_count = s.classification_count + 1
      ∧ (clsRun 3 s).cls_published = s.cls_published
      ∧ (clsRun 4 s).cls_workers = [WorkerPC.sleepCheck]
      ∧ (clsRun 4 s).cls_published = (s.classification_count + 1) :: s.cls_published
      ∧ (clsRun 5 s).cls_workers = [WorkerPC.sleeping]
      ∧ (clsRun 6 s).cls_workers = [WorkerPC.loopHead]
      ∧ (clsRun 6 s).classification_count = s.classification_count + 1)
    ∧ (∀ s pc, s.is_classifying = false → s.cls_workers = [pc] →
        notMidCycle pc →
        ∀ fuel, (clsRun fuel s).classification_count = s.classification_count
          ∧ (clsRun fuel s).cls_published = s.cls_published) := by
  refine ⟨?_, ?_, ?_, ?_⟩
  · intro s hw hc hlt
    obtain ⟨ic, icl, imc, cc, cw, sw, pg, cp, sp, wn, er⟩ := s
    replace hw : cw = [WorkerPC.loopHead] := hw
    replace hc : ic = true := hc
    replace hlt : imc < env.images_per_session := hlt
    subst hw
    subst hc
    have e1 := stepCol_loopHead_go env
      ⟨true, icl, imc, cc, [WorkerPC.loopHead], sw, pg, cp, sp, wn, er⟩ rfl rfl hlt
    refine ⟨?_, ?_, ?_, ?_, ?_, ?_, ?_, ?_, ?_, ?_, ?_, ?_⟩
    · show (colRun env 0 (stepColWorker env 0 _)).col_workers = _
      rw [e1]
      rfl
    · show (colRun env 1 (stepColWorker env 0 _)).col_workers = _
      rw [e1]
      rfl
    · show (colRun env 1 (stepColWorker env 0 _)).image_count = _
      rw [e1]
      rfl
    · show (colRun env 1 (stepColWorker env 0 _)).col_published = _
      rw [e1]
      rfl
    · show (colRun env 2 (stepColWorker env 0 _)).col_workers = _
      rw [e1]
      rfl
    · show (colRun env 2 (stepColWorker env 0 _)).image_count = _
      rw [e1]
      rfl
    · show (colRun env 2 (stepColWorker env 0 _)).col_published = _
      rw [e1]
      rfl
    · show (colRun env 3 (stepColWorker env 0 _)).col_workers = _
      rw [e1]
      rfl
    · show (colRun env 3 (stepColWorker env 0 _)).col_published = _
      rw [e1]
      rfl
    · show (colRun env 4 (stepColWorker env 0 _)).col_workers = _
      rw [e1]
      rfl
    · show (colRun env 5 (stepColWorker env 0 _)).col_workers = _
      rw [e1]
      rfl
    · show (colRun env 5 (stepColWorker env 0 _)).image_count = _
      rw [e1]
      rfl
  · intro s pc hf hw hpc fuel
    exact colStopped_run env fuel s pc hf hw hpc
  · intro s hw hc
    obtain ⟨ic, icl, imc, cc, cw, sw, pg, cp, sp, wn, er⟩ := s
    replace hw : sw = [WorkerPC.loopHead] := hw
    replace hc : icl = true := hc
    subst hw
    subst hc
    exact ⟨rfl, rfl, rfl, rfl, rfl, rfl, rfl, rfl, rfl, rfl, rfl, rfl⟩
  · intro s pc hf hw hpc fuel
    exact clsStopped_run fuel s pc hf hw hpc

/-- Witness for C5: a full first cycle after fresh starts, and stopped
workers at the wait and at the sleep guard that never touch the counters
again. -/
theorem C5_witness :
    ((colRun env0 1 (start_collection_mode initState)).col_workers = [WorkerPC.capture]
     ∧ (colRun env0 2 (start_collection_mode initState)).col_workers = [WorkerPC.increment]
     ∧ (colRun env0 2 (start_collection_mode initState)).image_count = 0
     ∧ (colRun env0 2 (start_collection_mode initState)).col_published = []
     ∧ (colRun env0 3 (start_collection_mode initState)).col_workers = [WorkerPC.publish]
     ∧ (colRun env0 3 (start_collection_mode initState)).image_count = 0 + 1
     ∧ (colRun env0 3 (start_collection_mode initState)).col_published = []
     ∧ (colRun env0 4 (start_collection_mode initState)).col_workers = [WorkerPC.sleepCheck]
     ∧ (colRun env0 4 (start_collection_mode initState)).col_published = [0 + 1]
     ∧ (colRun env0 5 (start_collection_mode initState)).col_workers = [WorkerPC.sleeping]
     ∧ (colRun env0 6 (start_collection_mode initState)).col_workers = [WorkerPC.loopHead]
     ∧ (colRun env0 6 (start_collection_mode initState)).image_count = 0 + 1)
    ∧ ((colRun env0 9 { initState with col_workers := [WorkerPC.sleeping] }).image_count = 0
       ∧ (colRun env0 9 { initState with col_workers := [WorkerPC.sleeping] }).col_published = [])
    ∧ ((clsRun 9 { initState with cls_workers := [WorkerPC.sleepCheck] }).classification_count = 0
       ∧ (clsRun 9 { initState with cls_workers := [WorkerPC.sleepCheck] }).cls_published = []) :=
  ⟨(C5_cycle_order_and_prompt_stop env0).1 (start_collection_mode initState)
      rfl rfl (by decide),
   (C5_cycle_order_and_prompt_stop env0).2.1
      { initState with col_workers := [WorkerPC.sleeping] } WorkerPC.sleeping
      rfl rfl (by simp [notMidCycle]) 9,
   (C5_cycle_order_and_prompt_stop env0).2.2.2
      { initState with cls_workers := [WorkerPC.sleepCheck] } WorkerPC.sleepCheck
      rfl rfl (by simp [notMidCycle]) 9⟩

/-- C10: stopping either mode from Standby leaves the mode flags, both
counters and the workers unchanged (only the main page is shown again). -/
theorem C10_stop_in_standby_noop (s : HWState)
    (h1 : s.is_collecting = false) (h2 : s.is_classifying = false) :
    (stop_collection_mode s).is_collecting = s.is_collecting
    ∧ (stop_collection_mode s).is_classifying = s.is_classifying
    ∧ (stop_collection_mode s).image_count = s.image_count
    ∧ (stop_collection_mode s).classification_count = s.classification_count
    ∧ (stop_collection_mode s).col_workers = s.col_workers
    ∧ (stop_collection_mode s).cls_workers = s.cls_workers
    ∧ (stop_classification_mode s).is_collecting = s.is_collecting
    ∧ (stop_classification_mode s).is_classifying = s.is_classifying
    ∧ (stop_classification_mode s).image_count = s.image_count
    ∧ (stop_classification_mode s).classification_count = s.classification_count
    ∧ (stop_classification_mode s).col_workers = s.col_workers
    ∧ (stop_classification_mode s).cls_workers = s.cls_workers :=
  ⟨h1.symm, rfl, rfl, rfl, rfl, rfl, rfl, h2.symm, rfl, rfl, rfl, rfl⟩

/-- Witness for C10 at the initial (Standby) state. -/
theorem C10_witness :
    ((stop_collection_mode initState).is_collecting = initState.is_collecting
     ∧ (stop_collection_mode initState).is_classifying = initState.is_classifying
     ∧ (stop_collection_mode initState).image_count = initState.image_count
     ∧ (stop_collection_mode initState).classification_count = initState.classification_count
     ∧ (stop_collection_mode initState).col_workers = initState.col_workers
     ∧ (stop_collection_mode initState).cls_workers = initState.cls_workers
     ∧ (stop_classification_mode initState).is_collecting = initState.is_collecting
     ∧ (stop_classification_mode initState).is_classifying = initState.is_classifying
     ∧ (stop_classification_mode initState).image_count = initState.image_count
     ∧ (stop_classification_mode initState).classification_count = initState.classification_count
     ∧ (stop_classification_mode initState).col_workers = initState.col_workers
     ∧ (stop_classification_mode initState).cls_workers = initState.cls_workers) :=
  C10_stop_in_standby_noop initState rfl rfl

end PiFMCG
